import Mathlib

/-!
# Verification of the clone_tray daemon-orchestration layer

Shallow embedding of the rclone-tray orchestration code (RPC client,
daemon startup supervisor, mount orchestrator, sync orchestrator and the
INI-backed slot-configuration store) together with proofs of the frozen
behavioural claims about it.

Conventions used throughout:
* JS objects / `Map`s are modelled as association lists over `String` keys
  (first-match lookup, in-place overwrite on assignment, append on fresh key),
  mirroring JS property-lookup and insertion-order semantics.
* JS `undefined` / missing string fields are modelled as `""`, which behaves
  identically under the `||`-default and `=== 'true'` patterns the code uses.
* The daemon is an oracle: each HTTP request consumes the next scripted
  outcome; the sequence of issued requests is recorded in a trace.
-/

set_option autoImplicit false

namespace CloneTray

/-! ## Association lists (JS objects and Maps) -/

/-- First-match lookup, as JS property access / `Map.get`. -/
def alookup {α : Type} : List (String × α) → String → Option α
  | [], _ => none
  | (k, v) :: t, key => if k = key then some v else alookup t key

/-- Assignment: overwrite in place if the key exists, else append
(JS property assignment / `Map.set` insertion-order semantics). -/
def aset {α : Type} : List (String × α) → String → α → List (String × α)
  | [], key, v => [(key, v)]
  | (k, w) :: t, key, v => if k = key then (key, v) :: t else (k, w) :: aset t key v

/-- Deletion of a key (JS `delete obj[k]` / `Map.delete`). -/
def adel {α : Type} : List (String × α) → String → List (String × α)
  | [], _ => []
  | (k, w) :: t, key => if k = key then t else (k, w) :: adel t key

/-! ## JS value helpers -/

/-- Whether `needle` occurs as a contiguous run inside the list. -/
def containsSeq (needle : List Char) : List Char → Bool
  | [] => needle.isEmpty
  | c :: rest => needle.isPrefixOf (c :: rest) || containsSeq needle rest

/-- JS `String.prototype.includes`: substring containment. -/
def jsIncludes (s sub : String) : Bool := containsSeq sub.data s.data

/-- JS `Boolean.prototype.toString`. -/
def boolStr : Bool → String
  | true => "true"
  | false => "false"

/-- JS `a || d` for strings where `""` (and `undefined`, modelled as `""`)
is the only falsy value that occurs. -/
def orDefault (s d : String) : String := if s = "" then d else s

/-- Accumulator recursion behind `jsSplitChar`. -/
def splitCharAux (sep : Char) : List Char → List Char → List (List Char)
  | [], acc => [acc.reverse]
  | c :: rest, acc =>
    if c = sep then acc.reverse :: splitCharAux sep rest []
    else splitCharAux sep rest (c :: acc)

/-- JS `String.prototype.split` with a single-character separator. -/
def jsSplitChar (s : String) (sep : Char) : List String :=
  (splitCharAux sep s.data []).map String.mk

/-- JS truthiness of an optional job id (`0` and `undefined` are falsy). -/
def jsTruthyNat : Option Nat → Bool
  | some n => n != 0
  | none => false

/-- JS truthiness of an optional string (`""` and `undefined` are falsy). -/
def jsTruthyStr : Option String → Bool
  | some s => s != ""
  | none => false

/-! ## RPC client: `RcloneApiService.makeRequest` (src/RcloneApiService.js 18-133)

The transport below `makeRequest` (the raced `fetch`, the HTTP status check
and the body-parsing race) is an oracle `fetch : Nat → Nat → FetchStage`
giving the outcome of the attempt with the given index under the given
request timeout. -/

/-- Outcome of one transport attempt, before `makeRequest`'s error handling:
a rejected promise (network error with a `code` and message — the raced
request timeout is such a rejection), a non-2xx HTTP response, a timeout
while parsing the response body, or a parsed JSON payload. -/
inductive FetchStage : Type
  | reject (code : String) (msg : String)
  | httpErr (status : Nat) (body : String)
  | parseTimeout
  | okResp (payload : String)

/-- An error as caught by `makeRequest`: `error.code` and `error.message`. -/
structure JsError where
  code : String
  msg : String
deriving DecidableEq, Repr

/-- How the body of `makeRequest`'s `try` turns a transport outcome into a
returned payload or a thrown error, mirroring the `!response.ok` branch and
the parse-timeout race. -/
def classifyStage : FetchStage → Except JsError String
  | .reject code msg => .error ⟨code, msg⟩
  | .httpErr status body => .error ⟨"", "HTTP error " ++ toString status ++ ": " ++ body⟩
  | .parseTimeout => .error ⟨"", "Response parsing timeout"⟩
  | .okResp payload => .ok payload

/-- The retry condition of `makeRequest`:
`error.code === 'ECONNRESET' || error.message.includes('socket hang up')`. -/
def retryableError (e : JsError) : Bool :=
  e.code == "ECONNRESET" || jsIncludes e.msg "socket hang up"

/-- `this.maxRetries` (src/RcloneApiService.js:14). -/
def maxRetries : Nat := 3

/-- `this.retryDelay` in milliseconds (src/RcloneApiService.js:15). -/
def retryDelay : Nat := 1000

instance exceptDecEq {ε α : Type} [DecidableEq ε] [DecidableEq α] : DecidableEq (Except ε α)
  | .ok x, .ok y =>
    if h : x = y then .isTrue (by rw [h]) else .isFalse (by intro hc; cases hc; exact h rfl)
  | .ok _, .error _ => .isFalse (by intro hc; cases hc)
  | .error _, .ok _ => .isFalse (by intro hc; cases hc)
  | .error e, .error f =>
    if h : e = f then .isTrue (by rw [h]) else .isFalse (by intro hc; cases hc; exact h rfl)

/-- Observable result of a `makeRequest` run: the returned payload or thrown
error, the number of transport attempts actually made, and the list of
inter-attempt delays that were awaited. -/
structure MRRun where
  result : Except JsError String
  calls : Nat
  delays : List Nat
deriving DecidableEq, Repr

/-- The `while (attempt < this.maxRetries)` loop of `makeRequest`.
`fuel` is `maxRetries - attempt`, so the recursion is structural; the
`fuel = 0` case is the fall-through `throw lastError` after the loop. -/
def mrLoop (fetch : Nat → Nat → FetchStage) (timeout : Nat) :
    Nat → Nat → Nat → List Nat → Option JsError → MRRun
  | _, 0, calls, delays, last => ⟨.error (last.getD ⟨"", "null"⟩), calls, delays⟩
  | attempt, fuel + 1, calls, delays, _last =>
    match classifyStage (fetch attempt timeout) with
    | .ok payload => ⟨.ok payload, calls + 1, delays⟩
    | .error e =>
      if retryableError e then
        if attempt + 1 < maxRetries then
          mrLoop fetch timeout (attempt + 1) fuel (calls + 1) (delays ++ [retryDelay]) (some e)
        else ⟨.error e, calls + 1, delays⟩
      else ⟨.error e, calls + 1, delays⟩

/-- `RcloneApiService.makeRequest` under a transport oracle and the current
value of `this.timeout`. -/
def makeRequest (fetch : Nat → Nat → FetchStage) (timeout : Nat) : MRRun :=
  mrLoop fetch timeout 0 maxRetries 0 [] none

/-- `this.timeout` of the RPC client (the only piece of client state
`pingServer` touches). -/
structure ApiTimeoutState where
  timeout : Nat
deriving DecidableEq, Repr

/-- Whether an `Except` result is a success. -/
def exceptOk {ε α : Type} : Except ε α → Bool
  | .ok _ => true
  | .error _ => false

/-- `RcloneApiService.pingServer` (src/RcloneApiService.js 202-214): lower
`this.timeout` to 2000 for the probe, map the probe outcome to a `Bool`,
restore the original timeout in `finally`. -/
def pingServer (fetch : Nat → Nat → FetchStage) (st : ApiTimeoutState) : Bool × ApiTimeoutState :=
  let originalTimeout := st.timeout
  let st1 : ApiTimeoutState := { timeout := 2000 }
  let probe := makeRequest fetch st1.timeout
  let result := exceptOk probe.result
  (result, { st1 with timeout := originalTimeout })

/-! ## Sync-slot configuration store (src/rclone.js 900-910, 1176-1280)

The INI config file is modelled as an association list from section keys to
sync sections; a sync section's `_rclonetray_sync_*` values are strings, with
`""` standing for an absent key (both are falsy under `||` and fail
`=== 'true'`, so the behaviours coincide). -/

/-- A `<bookmark>.sync_<name>` section of the INI file
(the `_rclonetray_sync_*` keys). -/
structure SyncSection where
  enabled : String
  localPath : String
  remotePath : String
  mode : String
  direction : String
  initialized : String
  transfers : String
  checkers : String
  maxDelete : String
deriving DecidableEq, Repr

abbrev SyncStore := List (String × SyncSection)

/-- The sync-slot configuration record handed around by the orchestrator
(the shape produced by `getSyncConfig`). -/
structure SyncCfg where
  name : String
  enabled : Bool
  localPath : String
  remotePath : String
  mode : String
  direction : String
  initialized : String
  transfers : String
  checkers : String
  maxDelete : String
deriving DecidableEq, Repr

/-- Section key for a sync slot: `` `${bookmark.$name}.sync_${syncName}` ``. -/
def syncSectionKey (bn sname : String) : String := bn ++ ".sync_" ++ sname

/-- `getSyncConfig` (src/rclone.js 1176-1215): `null` when the section is
missing, else the record with `DEFAULT_SYNC_OPTIONS` fallbacks, and `null`
again when the local or remote path is still empty after the fallback. -/
def getSyncConfig (store : SyncStore) (bn sname : String) : Option SyncCfg :=
  match alookup store (syncSectionKey bn sname) with
  | none => none
  | some s =>
    let cfg : SyncCfg :=
      { name := sname
        enabled := s.enabled == "true"
        localPath := orDefault s.localPath ""
        remotePath := orDefault s.remotePath ""
        mode := orDefault s.mode "bisync"
        direction := orDefault s.direction "upload"
        initialized := orDefault s.initialized "false"
        transfers := orDefault s.transfers "2"
        checkers := orDefault s.checkers "4"
        maxDelete := orDefault s.maxDelete "100" }
    if cfg.localPath = "" || cfg.remotePath = "" then none else some cfg

/-- The section written by `saveSyncConfig` (src/rclone.js 1242-1257):
every field defaulted through `|| DEFAULT_SYNC_OPTIONS.*`. -/
def sectionOfCfg (c : SyncCfg) : SyncSection :=
  { enabled := boolStr c.enabled
    localPath := orDefault c.localPath ""
    remotePath := orDefault c.remotePath ""
    mode := orDefault c.mode "bisync"
    direction := orDefault c.direction "upload"
    initialized := orDefault c.initialized "false"
    transfers := orDefault c.transfers "2"
    checkers := orDefault c.checkers "4"
    maxDelete := orDefault c.maxDelete "100" }

/-- `saveSyncConfig` (src/rclone.js 1224-1280): parameter validation then a
whole-section overwrite. -/
def saveSyncConfigFn (bn : String) (c : SyncCfg) (sname : String) (store : SyncStore) :
    Except String SyncStore :=
  if bn = "" || sname = "" then
    .error "Missing required parameters for saving sync config"
  else
    .ok (aset store (syncSectionKey bn sname) (sectionOfCfg c))

/-! ## Sync orchestrator: `RcloneSyncService` (src/RcloneSyncService.js)

Daemon interaction is a script of outcomes consumed one per request, with the
issued requests (and configuration-store writes) recorded in an event trace. -/

/-- A daemon RPC request issued by the sync service. -/
inductive Req : Type
  | jobStatus (jobid : Nat)
  | command (cmd : String) (args : List String)
  | jobStop (jobid : Nat)
deriving DecidableEq, Repr

/-- A daemon response (only the fields the service reads). Reading a field
a response does not carry yields the JS `undefined`, i.e. falsy. -/
inductive Resp : Type
  | cmd (jobid : Option Nat)
  | status (finished : Bool) (error : Option String)
  | unit
deriving DecidableEq, Repr

/-- `response.jobid` (undefined on non-command responses). -/
def Resp.jobidField : Resp → Option Nat
  | .cmd j => j
  | _ => none

/-- `status.finished` (undefined, hence falsy, on other responses). -/
def Resp.finishedField : Resp → Bool
  | .status f _ => f
  | _ => false

/-- `status.error` (undefined on other responses). -/
def Resp.errorField : Resp → Option String
  | .status _ e => e
  | _ => none

/-- An observable event of a sync-service run: a daemon request, or a
sync-section write through `saveSyncConfig`. -/
inductive Ev : Type
  | api (r : Req)
  | save (sectionKey : String) (sec : SyncSection)
deriving DecidableEq, Repr

/-- In-memory record of an active sync
(`this.activeSyncs.set(syncKey, {...})`). -/
structure SyncInfo where
  jobId : Nat
  config : SyncCfg
  startTime : Nat
  lastCheck : Nat
deriving DecidableEq, Repr

/-- The world a sync-service run threads: the remaining daemon script, the
event trace, the `activeSyncs` map, the INI store and the current time. -/
structure SyncWorld where
  script : List (Except String Resp)
  trace : List Ev
  active : List (String × SyncInfo)
  store : SyncStore
  now : Nat
deriving DecidableEq, Repr

/-- Sync-service computations: state plus JS exceptions (`Except String`). -/
def SyncM (α : Type) : Type := SyncWorld → Except String α × SyncWorld

instance : Monad SyncM where
  pure a := fun w => (.ok a, w)
  bind m f := fun w =>
    match m w with
    | (.ok a, w1) => f a w1
    | (.error e, w1) => (.error e, w1)

/-- JS `try { m } catch (e) { h e }`: the handler sees the state as left by
the failing computation. -/
def tryCatchM {α : Type} (m : SyncM α) (h : String → SyncM α) : SyncM α := fun w =>
  match m w with
  | (.ok a, w1) => (.ok a, w1)
  | (.error e, w1) => h e w1

/-- `throw new Error(e)`. -/
def throwE {α : Type} (e : String) : SyncM α := fun w => (.error e, w)

def getWorld : SyncM SyncWorld := fun w => (.ok w, w)

/-- `this.apiService.makeRequest(...)`: consume the next scripted outcome and
record the request; an exhausted script fails the call. -/
def apiCall (r : Req) : SyncM Resp := fun w =>
  match w.script with
  | [] => (.error "no scripted response", { w with trace := w.trace ++ [.api r] })
  | o :: rest => (o, { w with script := rest, trace := w.trace ++ [.api r] })

/-- `this.activeSyncs.delete(syncKey)`. -/
def deleteActive (syncKey : String) : SyncM Unit := fun w =>
  (.ok (), { w with active := adel w.active syncKey })

/-- `this.activeSyncs.set(syncKey, info)`. -/
def setActive (syncKey : String) (info : SyncInfo) : SyncM Unit := fun w =>
  (.ok (), { w with active := aset w.active syncKey info })

/-- `syncInfo.lastCheck = now` (mutates the entry in place). -/
def setLastCheck (syncKey : String) (t : Nat) : SyncM Unit := fun w =>
  match alookup w.active syncKey with
  | none => (.ok (), w)
  | some info => (.ok (), { w with active := aset w.active syncKey { info with lastCheck := t } })

/-- `await new Promise(resolve => setTimeout(resolve, ms))`. -/
def sleepM (ms : Nat) : SyncM Unit := fun w => (.ok (), { w with now := w.now + ms })

/-- `_saveInitializationStatus` writing through `saveSyncConfig`, with the
write recorded in the trace. -/
def saveSyncConfigM (bn : String) (c : SyncCfg) (sname : String) : SyncM Unit := fun w =>
  match saveSyncConfigFn bn c sname w.store with
  | .error e => (.error e, w)
  | .ok st =>
    (.ok (), { w with store := st,
                      trace := w.trace ++ [.save (syncSectionKey bn sname) (sectionOfCfg c)] })


/-- `_waitForJob`'s per-iteration body plus recursion
(src/RcloneSyncService.js 525-554). `start` is the captured `startTime`,
`timeout` the bound (default 3600000 ms); the clock advances 1000 ms per
sleep. The fuel only bounds the recursion for Lean; it is chosen large
enough (script length + 1) that the wall-clock timeout or script exhaustion
always fires first. -/
def waitForJobAux (jobId timeout start : Nat) : Nat → SyncM (Option Resp)
  | 0 => throwE "wait fuel exhausted"
  | fuel + 1 => do
    let w ← getWorld
    if w.now - start > timeout then throwE "job wait timeout"
    else do
      let step ← tryCatchM
        (do
          let st ← apiCall (.jobStatus jobId)
          if st.finishedField then
            match st.errorField with
            | some e =>
              if e ≠ "" then throwE e else pure (some (some st))
            | none => pure (some (some st))
          else pure (none : Option (Option Resp)))
        (fun e =>
          if jsIncludes e "job not found" then pure (some (none : Option Resp))
          else throwE e)
      match step with
      | some out => pure out
      | none => do
        sleepM 1000
        waitForJobAux jobId timeout start fuel

/-- `_waitForJob(jobId, timeout)`. -/
def waitForJob (jobId : Nat) (timeout : Nat) : SyncM (Option Resp) := fun w =>
  waitForJobAux jobId timeout w.now (w.script.length + 1) w

/-- Argument list of the one-shot initial copy
(src/RcloneSyncService.js 492-507). -/
def initialSyncArgs (remotePath localPath : String) : List String :=
  [remotePath, localPath, "--create-empty-src-dirs", "--inplace", "--verbose",
   "--track-renames", "--ignore-existing", "--modify-window", "2s",
   "--timeout", "30s", "--transfers", "1"]

/-- `_initialSync` (src/RcloneSyncService.js 488-520): submit the async
`sync` command, then wait for the job to finish. -/
def initialSync (remotePath localPath : String) : SyncM Unit := do
  let resp ← apiCall (.command "sync" (initialSyncArgs remotePath localPath))
  if jsTruthyNat resp.jobidField then do
    let _ ← waitForJob (resp.jobidField.getD 0) 3600000
    pure ()
  else throwE "failed to get job id for initial sync"

/-- Base argument list of `_runBisync` (src/RcloneSyncService.js 408-422). -/
def bisyncBaseArgs (remotePath localPath : String) : List String :=
  [remotePath, localPath, "--force", "--create-empty-src-dirs", "--resilient",
   "--ignore-case", "--conflict-resolve", "newer", "--compare", "modtime,size",
   "--modify-window", "2s", "--timeout", "30s", "--transfers", "1",
   "--ignore-listing-checksum", "-v"]

/-- Full `bisync` argument list, with the resync flags appended on the
bootstrap run. -/
def bisyncArgs (remotePath localPath : String) (useResync : Bool) : List String :=
  bisyncBaseArgs remotePath localPath ++
    (if useResync then ["--resync", "--resync-mode", "newer"] else [])

/-- `_runBisync` (src/RcloneSyncService.js 403-446): submit the async
`bisync` command and return the job id. -/
def runBisync (remotePath localPath : String) (useResync : Bool) : SyncM Nat := do
  let resp ← apiCall (.command "bisync" (bisyncArgs remotePath localPath useResync))
  if jsTruthyNat resp.jobidField then pure (resp.jobidField.getD 0)
  else throwE "failed to get job id for bisync"

/-- `_checkInitialized` (src/RcloneSyncService.js 355-363). -/
def checkInitialized (store : SyncStore) (bn sname : String) : Bool :=
  match getSyncConfig store bn sname with
  | some c => c.initialized == "true"
  | none => false

/-- The record `_saveInitializationStatus` builds
(src/RcloneSyncService.js 373-381): spread of the existing config, then the
overriding fields; absent spread fields are `undefined`, modelled as `""`. -/
def updatedInitConfig (existing : Option SyncCfg) (c : SyncCfg) : SyncCfg :=
  { name := c.name
    enabled := match existing with | some e => e.enabled | none => false
    localPath := c.localPath
    remotePath := c.remotePath
    mode := "bisync"
    direction := match existing with | some e => e.direction | none => ""
    initialized := "true"
    transfers := match existing with | some e => e.transfers | none => ""
    checkers := match existing with | some e => e.checkers | none => ""
    maxDelete := match existing with | some e => e.maxDelete | none => "" }

/-- `_saveInitializationStatus` (src/RcloneSyncService.js 369-389). -/
def saveInitializationStatus (bn : String) (c : SyncCfg) : SyncM Unit := do
  let w ← getWorld
  let existing := getSyncConfig w.store bn c.name
  saveSyncConfigM bn (updatedInitConfig existing c) c.name

/-- The sync key `` `${bookmark.$name}_${config.name}` ``. -/
def syncKeyOf (bn sname : String) : String := bn ++ "_" ++ sname

/-- `startSync` (src/RcloneSyncService.js 560-619): validate the config,
confirm or clear a stale tracked entry, run the bootstrap phase when the
slot is uninitialized, then start and track the steady bisync job. -/
def startSync (bn : String) (config : SyncCfg) : SyncM Bool := do
  if config.localPath = "" || config.remotePath = "" then
    throwE "invalid sync configuration"
  else do
    let syncKey := syncKeyOf bn config.name
    let w ← getWorld
    let proceed ←
      match alookup w.active syncKey with
      | none => pure true
      | some existing =>
        tryCatchM
          (do
            let st ← apiCall (.jobStatus existing.jobId)
            if st.finishedField then do
              deleteActive syncKey
              pure true
            else pure false)
          (fun _ => do
            deleteActive syncKey
            pure true)
    if proceed then do
      let localPath := config.localPath
      let remotePath := bn ++ ":" ++ config.remotePath
      let w2 ← getWorld
      let bisyncJobId ←
        if checkInitialized w2.store bn config.name then
          runBisync remotePath localPath false
        else do
          initialSync remotePath localPath
          let j1 ← runBisync remotePath localPath true
          let _ ← waitForJob j1 3600000
          saveInitializationStatus bn config
          runBisync remotePath localPath false
      let w3 ← getWorld
      setActive syncKey ⟨bisyncJobId, config, w3.now, w3.now⟩
      pure true
    else pure false

/-- `stopSync` (src/RcloneSyncService.js 625-651): `false` when the key is
untracked; otherwise request the daemon stop, clearing the entry on success
or on a job-not-found failure, and rethrowing any other failure with the
entry left in place. -/
def stopSync (bn sname : String) : SyncM Bool := do
  let syncKey := syncKeyOf bn sname
  let w ← getWorld
  match alookup w.active syncKey with
  | none => pure false
  | some info =>
    tryCatchM
      (do
        let _ ← apiCall (.jobStop info.jobId)
        deleteActive syncKey
        pure true)
      (fun e =>
        if jsIncludes e "job not found" then do
          deleteActive syncKey
          pure true
        else throwE e)

/-- `this.healthCheckInterval` (src/RcloneSyncService.js 19). -/
def healthCheckInterval : Nat := 30000

/-- One iteration of `performHealthCheck`'s loop over `activeSyncs`
(src/RcloneSyncService.js 30-81): skip fresh entries, poll the job status,
relaunch finished error-free bisync jobs through `startSync`, drop finished
one-shot or failed jobs, and drop entries whose job the daemon no longer
knows; all other status-poll failures are swallowed. -/
def healthCheckOne (syncKey : String) (info : SyncInfo) : SyncM Unit := do
  let w ← getWorld
  if w.now - info.lastCheck < healthCheckInterval then pure ()
  else
    tryCatchM
      (do
        let st ← apiCall (.jobStatus info.jobId)
        setLastCheck syncKey w.now
        if st.finishedField then
          if jsTruthyStr st.errorField then deleteActive syncKey
          else
            if info.config.mode == "bisync" then do
              let bookmarkName := ((jsSplitChar syncKey '_').headD "")
              deleteActive syncKey
              let _ ← startSync bookmarkName info.config
              pure ()
            else deleteActive syncKey
        else pure ())
      (fun e =>
        if jsIncludes e "job not found" then deleteActive syncKey
        else pure ())

/-- The loop body of `performHealthCheck` over a snapshot of the entries.
A re-inserted key (the bisync relaunch path) is visited again by the JS
`Map` iterator but immediately skipped by the `lastCheck` freshness guard,
so processing the snapshot once is observably equivalent. -/
def healthCheckList : List (String × SyncInfo) → SyncM Unit
  | [] => pure ()
  | (k, info) :: rest => do
    healthCheckOne k info
    healthCheckList rest

/-- `performHealthCheck` (src/RcloneSyncService.js 26-82). -/
def performHealthCheck : SyncM Unit := do
  let w ← getWorld
  healthCheckList w.active

/-- `stopSync` of the service-module variant
(src/services/rclone/sync.service.js 290-319): `false` when untracked;
otherwise request the daemon stop and clear both the tracked entry and the
monitor timer whatever the daemon answers, returning `true` on success and
`false` on any failure. `daemonCalled` records whether `job/stop` was
issued. -/
structure SvcStopRun where
  result : Bool
  active : List (String × Nat)
  monitors : List String
  daemonCalled : Bool
deriving DecidableEq, Repr

/-- The service-module cache key `` `${bookmarkName}@@${syncName}` ``. -/
def svcSyncKey (bn sname : String) : String := bn ++ "@@" ++ sname

/-- `RcloneSyncService.stopSync` of src/services/rclone/sync.service.js,
with the daemon's answer to the single `job/stop` request as `outcome`. -/
def stopSyncSvc (active : List (String × Nat)) (monitors : List String)
    (outcome : Except String Resp) (bn sname : String) : SvcStopRun :=
  let cacheKey := svcSyncKey bn sname
  match alookup active cacheKey with
  | none => ⟨false, active, monitors, false⟩
  | some _ =>
    match outcome with
    | .ok _ => ⟨true, adel active cacheKey, monitors.filter (fun k => k != cacheKey), true⟩
    | .error _ => ⟨false, adel active cacheKey, monitors.filter (fun k => k != cacheKey), true⟩

/-! ## Mount-slot configuration store (src/rclone.js 256-307, 349-375) -/

/-- `DEFAULT_MOUNT_OPTIONS._rclonetray_mount_options`
(src/rclone.js 259-265). -/
def defaultMountOptions : List (String × String) :=
  [("--vfs-cache-mode", "writes"), ("--dir-cache-time", "30m"),
   ("--vfs-cache-max-age", "24h"), ("--vfs-read-ahead", "128M"),
   ("--buffer-size", "32M")]

/-- A mount-slot configuration record as produced by `getMountConfig`. -/
structure MountCfg where
  enabled : Bool
  path : String
  remotePath : String
  options : List (String × String)
deriving DecidableEq, Repr

/-- A section of the INI file, as raw key/value pairs. -/
abbrev MountStore := List (String × List (String × String))

/-- Section key for a mount slot: the bookmark name itself for the default
slot, `` `${bookmark.$name}.mount_${mountName}` `` otherwise. -/
def mountSectionKey (bn mountName : String) : String :=
  if mountName = "default" then bn else bn ++ ".mount_" ++ mountName

/-- The `_rclonetray_mount_opt_` key marker for persisted mount options. -/
def mountOptTag : String := "_rclonetray_mount_opt_"

/-- Decoding of a persisted option key back to an option name:
`'--' + key.replace('_rclonetray_mount_opt_', '')`. Under the `startsWith`
guard the first occurrence of the marker is at position 0, so the JS
replace-first equals dropping the marker. -/
def decodeOptName (k : String) : String := ⟨"--".data ++ k.data.drop (mountOptTag.length)⟩

/-- Removal of the first occurrence of `sep` from a character list. -/
def jsReplaceFirstChars (sep : List Char) : List Char → List Char
  | [] => []
  | c :: rest =>
    if sep.isPrefixOf (c :: rest) then (c :: rest).drop sep.length
    else c :: jsReplaceFirstChars sep rest

/-- JS `String.prototype.replace` with a string pattern: replace the first
occurrence only (here: delete it). -/
def jsReplaceFirst (s sep : String) : String := ⟨jsReplaceFirstChars sep.data s.data⟩

/-- `getMountConfig` (src/rclone.js 272-307): defaults, overridden by the
section's `_rclonetray_*` keys; option keys carrying the marker are decoded
and assigned over a copy of the default option map in key order. -/
def getMountConfigFn (store : MountStore) (bn mountName : String) : MountCfg :=
  match alookup store (mountSectionKey bn mountName) with
  | none => ⟨false, "", "", defaultMountOptions⟩
  | some sec =>
    { enabled := alookup sec "_rclonetray_mount_enabled" == some "true"
      path := (alookup sec "_rclonetray_mount_path").getD ""
      remotePath := (alookup sec "_rclonetray_remote_path").getD ""
      options := sec.foldl
        (fun opts kv =>
          if mountOptTag.data.isPrefixOf kv.1.data then
            aset opts (decodeOptName kv.1) kv.2
          else opts)
        defaultMountOptions }

/-- `saveMountConfig` (src/rclone.js 349-375): read-modify-write of the
section; `remotePath` and `path` are written only when non-empty, `enabled`
always, and each option under the marker with its leading `--` stripped
(JS replace-first of `'--'`). -/
def saveMountConfigFn (store : MountStore) (bn : String) (cfg : MountCfg) (mountName : String) :
    MountStore :=
  let key := mountSectionKey bn mountName
  let sec0 := (alookup store key).getD []
  let sec1 :=
    if cfg.remotePath ≠ "" then aset sec0 "_rclonetray_remote_path" cfg.remotePath else sec0
  let sec2 := aset sec1 "_rclonetray_mount_enabled" (boolStr cfg.enabled)
  let sec3 := if cfg.path ≠ "" then aset sec2 "_rclonetray_mount_path" cfg.path else sec2
  let sec4 := cfg.options.foldl
    (fun s kv => aset s (mountOptTag ++ jsReplaceFirst kv.1 "--") kv.2) sec3
  aset store key sec4

/-! ## Mount orchestrator: `mount` (src/rclone.js 988-1104)

The daemon is again a scripted oracle; the filesystem is the set of existing
directories (`access`/`mkdir -p`; the `readdir` emptiness probe only logs a
warning and is a no-op on the state). -/

/-- A daemon request issued by the mount path. -/
inductive MReq : Type
  | unmountReq (mountPoint : String)
  | createMount (fs : String) (mountPoint : String) (opt : List (String × String))
  | listMounts
deriving DecidableEq, Repr

/-- A daemon response to a mount-path request; `mounts` carries the
`MountPoint` values of `mount/listmounts`. -/
inductive MResp : Type
  | unit
  | mounts (points : List String)
deriving DecidableEq, Repr

/-- `Cache.mountPoints[cacheKey]`. -/
structure MountEntry where
  path : String
  remote : String
  options : List (String × String)
deriving DecidableEq, Repr

/-- World threaded by a mount run. -/
structure MountWorld where
  script : List (Except String MResp)
  trace : List MReq
  mounts : List (String × MountEntry)
  store : MountStore
  dirs : List String
deriving DecidableEq, Repr

def MM (α : Type) : Type := MountWorld → Except String α × MountWorld

instance : Monad MM where
  pure a := fun w => (.ok a, w)
  bind m f := fun w =>
    match m w with
    | (.ok a, w1) => f a w1
    | (.error e, w1) => (.error e, w1)

def mTryCatch {α : Type} (m : MM α) (h : String → MM α) : MM α := fun w =>
  match m w with
  | (.ok a, w1) => (.ok a, w1)
  | (.error e, w1) => h e w1

def mThrow {α : Type} (e : String) : MM α := fun w => (.error e, w)

def mGetWorld : MM MountWorld := fun w => (.ok w, w)

def mApiCall (r : MReq) : MM MResp := fun w =>
  match w.script with
  | [] => (.error "no scripted response", { w with trace := w.trace ++ [r] })
  | o :: rest => (o, { w with script := rest, trace := w.trace ++ [r] })

def mDelCache (key : String) : MM Unit := fun w =>
  (.ok (), { w with mounts := adel w.mounts key })

/-- `fs.mkdirSync(p, { recursive: true })` after a failed existence probe:
ensure the directory is present. -/
def ensureDirList (p : String) (l : List String) : List String :=
  if l.contains p then l else l ++ [p]

def mEnsureDir (p : String) : MM Unit := fun w =>
  (.ok (), { w with dirs := ensureDirList p w.dirs })

/-- `getMountCacheKey` (src/rclone.js 769-771). -/
def mountCacheKey (bn mountName : String) : String := bn ++ "@@" ++ mountName

/-- `getMountPath` (src/rclone.js 776-791), with the `app.getPath('temp')`
directory as a parameter; resolving the generated path creates the shared
mounts directory. -/
def getMountPathM (cfg : MountCfg) (bn mountName tempDir : String) : MM String :=
  if cfg.path ≠ "" then pure cfg.path
  else do
    mEnsureDir (tempDir ++ "/rclonetray-mounts")
    pure (tempDir ++ "/rclonetray-mounts/" ++
      (if mountName = "default" then bn else bn ++ "@@" ++ mountName))

/-- The remote spec `` `${bookmark.$name}:` `` optionally joined with the
configured remote sub-path (`path.posix.join`). -/
def mountRemoteSpec (bn : String) (cfg : MountCfg) : String :=
  if cfg.remotePath ≠ "" then bn ++ ":/" ++ cfg.remotePath else bn ++ ":"

/-- The option map sent to `mount/mount`: the slot options plus the forced
`--daemon=false` and `--allow-other=true` entries. -/
def mountOptsOf (cfg : MountCfg) : List (String × String) :=
  aset (aset cfg.options "--daemon" "false") "--allow-other" "true"

/-- The verification step after a mount attempt: `fs.promises.access` on the
mount point, then a `mount/listmounts` probe; any failure resolves `false`. -/
def mountCheckM (mountPoint : String) : MM Bool := fun w =>
  if w.dirs.contains mountPoint then
    match mApiCall MReq.listMounts w with
    | (.ok (.mounts pts), w1) => (.ok (pts.contains mountPoint), w1)
    | (.ok .unit, w1) => (.ok false, w1)
    | (.error _, w1) => (.ok false, w1)
  else (.ok false, w)

/-- The `while (retries > 0)` mount-attempt loop (src/rclone.js 1044-1095):
on a verified mount, cache the entry, persist `enabled = true` and return
`true`; otherwise remember the failure and retry, throwing the last error
when the attempts are exhausted. -/
def mountLoop (bn mountName : String) (cfg : MountCfg) (remotePath mountPoint : String)
    (mountOpt : List (String × String)) (cacheKey : String) :
    Nat → Option String → MM Bool
  | 0, lastError => mThrow (lastError.getD "Failed to mount after retries")
  | retries + 1, _lastError => fun w =>
    match mApiCall (.createMount remotePath mountPoint mountOpt) w with
    | (.error e, w1) =>
      mountLoop bn mountName cfg remotePath mountPoint mountOpt cacheKey retries (some e) w1
    | (.ok _, w1) =>
      match mountCheckM mountPoint w1 with
      | (.ok true, w2) =>
        (.ok true,
         { w2 with
             mounts := aset w2.mounts cacheKey ⟨mountPoint, remotePath, mountOpt⟩,
             store := saveMountConfigFn w2.store bn { cfg with enabled := true } mountName })
      | (.ok false, w2) =>
        mountLoop bn mountName cfg remotePath mountPoint mountOpt cacheKey retries
          (some "Mount verification failed") w2
      | (.error e, w2) =>
        mountLoop bn mountName cfg remotePath mountPoint mountOpt cacheKey retries (some e) w2

/-- Body of `mount` up to the outer catch: resolve config and mount point,
unmount-and-forget any cached previous mount for the key, ensure the mount
directory exists, then run the attempt loop. -/
def mountInner (bn mountName tempDir : String) : MM Bool := do
  let w0 ← mGetWorld
  let cfg := getMountConfigFn w0.store bn mountName
  let mountPoint ← getMountPathM cfg bn mountName tempDir
  let cacheKey := mountCacheKey bn mountName
  let w1 ← mGetWorld
  (match alookup w1.mounts cacheKey with
   | some entry => do
      mTryCatch (do let _ ← mApiCall (.unmountReq entry.path); pure ()) (fun _ => pure ())
      mDelCache cacheKey
   | none => pure ())
  mEnsureDir mountPoint
  mountLoop bn mountName cfg (mountRemoteSpec bn cfg) mountPoint (mountOptsOf cfg) cacheKey 3 none

/-- `mount` (src/rclone.js 988-1104): the outer catch reports the error via
a dialog and returns `false`. -/
def mount (bn mountName tempDir : String) (w : MountWorld) : Bool × MountWorld :=
  match mountInner bn mountName tempDir w with
  | (.ok b, w1) => (b, w1)
  | (.error _, w1) => (false, w1)

/-! ## Daemon startup: `startRcloneAPI` (src/rclone.js 436-559) and the
CLI-mode mount dispatch (src/services/rclone/rclone.js 724-726) -/

/-- Number of ~1 s readiness polls that fit into the 15000 ms startup
window armed after the 2000 ms grace period (src/rclone.js 535-552). -/
def startupPollCount : Nat := 15

/-- Observable outcome of a `startRcloneAPI` run: the boolean the promise
resolves with (the routine never rejects), whether the spawned process was
killed on the startup deadline, and whether the API service was cached as
the active RPC channel. -/
structure StartOutcome where
  result : Bool
  killedProcess : Bool
  apiServiceCached : Bool
deriving DecidableEq, Repr

/-- `startRcloneAPI` under a readiness oracle: `ready k` tells whether the
k-th ~1 s poll (`apiService.checkConnection`) succeeds. Disabled settings or
a missing binary resolve `false` immediately; a poll succeeding within the
window resolves `true` and caches the service; otherwise the deadline fires,
the process is killed and the promise resolves `false`. -/
def startRcloneAPI (apiEnable binaryOk : Bool) (ready : Nat → Bool) : StartOutcome :=
  if !apiEnable then ⟨false, false, false⟩
  else if !binaryOk then ⟨false, false, false⟩
  else if (List.range startupPollCount).any (fun k => ready (k + 1)) then ⟨true, false, true⟩
  else ⟨false, true, false⟩

/-- The `mount` dispatch of the service-module entry point
(src/services/rclone/rclone.js 724-726):
`mountService ? await mountService.mount(...) : false`. In CLI-fallback mode
(`mountService` null) it resolves `false` without any daemon interaction. -/
def mountDispatch (mountService : Option (Except String Bool)) : Except String Bool :=
  match mountService with
  | some r => r
  | none => .ok false

/-! ## Statements of the composite claims

Bundling the per-scenario run equations as `Prop`-valued definitions keeps
the theorems and their concrete witnesses readable. -/

/-- C1, as one proposition over two stores: `storeU` holds an uninitialized
slot, `storeI` an initialized one. The four scenarios are: the full
bootstrap on an uninitialized slot (trace: one-shot copy submitted and
waited, forced-resync bisync submitted and waited, `initialized` persisted,
steady bisync submitted last and not waited, tracked as the active job);
the latch being set after the bootstrap; the initialized slot going
straight to the steady bisync with no bootstrap-copy command in its trace;
and the two bootstrap-copy failure modes (submission error, job finishing
with an error), which leave the store — hence the latch — and the tracked
set untouched. -/
def C1Prop (bn : String) (c : SyncCfg) (j1 j2 j3 k : Nat) (m1 m2 : String)
    (storeU storeI : SyncStore) : Prop :=
  let lp := c.localPath
  let rp := bn ++ ":" ++ c.remotePath
  let key := syncKeyOf bn c.name
  let secKey := syncSectionKey bn c.name
  let secA := sectionOfCfg (updatedInitConfig (getSyncConfig storeU bn c.name) c)
  (startSync bn c
      ⟨[.ok (.cmd (some j1)), .ok (.status true none), .ok (.cmd (some j2)),
        .ok (.status true none), .ok (.cmd (some j3))], [], [], storeU, 0⟩ =
    (.ok true,
     ⟨[], [.api (.command "sync" (initialSyncArgs rp lp)),
           .api (.jobStatus j1),
           .api (.command "bisync" (bisyncArgs rp lp true)),
           .api (.jobStatus j2),
           .save secKey secA,
           .api (.command "bisync" (bisyncArgs rp lp false))],
      [(key, ⟨j3, c, 0, 0⟩)], aset storeU secKey secA, 0⟩))
  ∧ checkInitialized (aset storeU secKey secA) bn c.name = true
  ∧ (startSync bn c ⟨[.ok (.cmd (some k))], [], [], storeI, 0⟩ =
      (.ok true,
       ⟨[], [.api (.command "bisync" (bisyncArgs rp lp false))],
        [(key, ⟨k, c, 0, 0⟩)], storeI, 0⟩))
  ∧ (startSync bn c ⟨[.error m1], [], [], storeU, 0⟩ =
      (.error m1, ⟨[], [.api (.command "sync" (initialSyncArgs rp lp))], [], storeU, 0⟩))
  ∧ (startSync bn c ⟨[.ok (.cmd (some j1)), .ok (.status true (some m2))], [], [], storeU, 0⟩ =
      (.error m2,
       ⟨[], [.api (.command "sync" (initialSyncArgs rp lp)), .api (.jobStatus j1)],
        [], storeU, 0⟩))

/-- C2 (amended): a `mount` on a key that is already in the active-mount
cache first requests an unmount of the cached path, drops the entry, then
submits a fresh `mount/mount` request and re-verifies — it is not a no-op. -/
def C2Prop (bn mountName tempDir : String) (entry : MountEntry)
    (mounts : List (String × MountEntry)) (store : MountStore) (d0 : List String) : Prop :=
  let cfg := getMountConfigFn store bn mountName
  let mp := cfg.path
  let key := mountCacheKey bn mountName
  mount bn mountName tempDir
      ⟨[.ok .unit, .ok .unit, .ok (.mounts [mp])], [], mounts, store, d0⟩ =
    (true,
     ⟨[], [MReq.unmountReq entry.path,
           MReq.createMount (mountRemoteSpec bn cfg) mp (mountOptsOf cfg),
           MReq.listMounts],
      aset (adel mounts key) key ⟨mp, mountRemoteSpec bn cfg, mountOptsOf cfg⟩,
      saveMountConfigFn store bn { cfg with enabled := true } mountName,
      ensureDirList mp d0⟩)

/-- C4 (amended), covering both `stopSync` variants. `RcloneSyncService`:
untracked keys give `false` with no daemon call; tracked keys are cleared
and give `true` on daemon success or a job-not-found failure, while any
other failure is rethrown with the entry still tracked.
`sync.service`: untracked keys give `false` with no daemon call; tracked
keys are always cleared, with `true` on success and `false` on any failure
(job-not-found included). -/
def C4Prop (bn sname : String) (info : SyncInfo)
    (act0 act1 : List (String × SyncInfo)) (scr : List (Except String Resp))
    (tr : List Ev) (st : SyncStore) (n : Nat) (m1 m2 : String)
    (sact0 sact1 : List (String × Nat)) (smon : List String)
    (resp0 : Resp) (me : String) : Prop :=
  let key := syncKeyOf bn sname
  let skey := svcSyncKey bn sname
  (stopSync bn sname ⟨scr, tr, act0, st, n⟩ = (.ok false, ⟨scr, tr, act0, st, n⟩))
  ∧ (stopSync bn sname ⟨[.ok .unit], tr, act1, st, n⟩ =
      (.ok true, ⟨[], tr ++ [.api (.jobStop info.jobId)], adel act1 key, st, n⟩))
  ∧ (stopSync bn sname ⟨[.error m1], tr, act1, st, n⟩ =
      (.ok true, ⟨[], tr ++ [.api (.jobStop info.jobId)], adel act1 key, st, n⟩))
  ∧ (stopSync bn sname ⟨[.error m2], tr, act1, st, n⟩ =
      (.error m2, ⟨[], tr ++ [.api (.jobStop info.jobId)], act1, st, n⟩))
  ∧ (stopSyncSvc sact0 smon (.ok resp0) bn sname = ⟨false, sact0, smon, false⟩)
  ∧ (stopSyncSvc sact1 smon (.ok resp0) bn sname =
      ⟨true, adel sact1 skey, smon.filter (fun x => x != skey), true⟩)
  ∧ (stopSyncSvc sact1 smon (.error me) bn sname =
      ⟨false, adel sact1 skey, smon.filter (fun x => x != skey), true⟩)

/-- C5, as one proposition: the health check on a finished, error-free
bisync job relaunches a steady job and replaces the tracked entry with the
fresh job id; on a finished, error-free one-shot job it only clears the
entry; and on a job-not-found status failure it clears the entry and still
returns successfully. -/
def C5Prop (bn : String) (c d : SyncCfg) (j1 j2 t0 tc n : Nat) (m : String)
    (store : SyncStore) : Prop :=
  let key := syncKeyOf bn c.name
  let keyd := syncKeyOf bn d.name
  (performHealthCheck
      ⟨[.ok (.status true none), .ok (.cmd (some j2))], [], [(key, ⟨j1, c, t0, tc⟩)], store, n⟩ =
    (.ok (),
     ⟨[], [.api (.jobStatus j1),
           .api (.command "bisync" (bisyncArgs (bn ++ ":" ++ c.remotePath) c.localPath false))],
      [(key, ⟨j2, c, n, n⟩)], store, n⟩))
  ∧ (performHealthCheck
        ⟨[.ok (.status true none)], [], [(keyd, ⟨j1, d, t0, tc⟩)], store, n⟩ =
      (.ok (), ⟨[], [.api (.jobStatus j1)], [], store, n⟩))
  ∧ (performHealthCheck ⟨[.error m], [], [(key, ⟨j1, c, t0, tc⟩)], store, n⟩ =
      (.ok (), ⟨[], [.api (.jobStatus j1)], [], store, n⟩))

/-- Sync-slot config of the C5 underscore scenario: slot `work` of the
bookmark `my_drive`, whose name contains an underscore (legal in rclone
remote names). -/
def underscoreCfg : SyncCfg :=
  ⟨"work", false, "/home/u/work", "backup", "bisync", "upload", "true", "", "", ""⟩

/-- Initial world of the C5 underscore scenario: one tracked bisync job
under the key `my_drive_work`, an initialized store section
`my_drive.sync_work`, and a daemon script serving the status poll plus the
full bootstrap that the misparsed relaunch then performs against the
truncated bookmark `my`. -/
def underscoreWorld : SyncWorld :=
  ⟨[.ok (.status true none), .ok (.cmd (some 42)), .ok (.status true none),
    .ok (.cmd (some 43)), .ok (.status true none), .ok (.cmd (some 44))], [],
   [("my_drive_work", ⟨41, underscoreCfg, 0, 0⟩)],
   [("my_drive.sync_work",
     ⟨"false", "/home/u/work", "backup", "bisync", "upload", "true", "2", "4", "100"⟩)],
   40000⟩

/-- C6, as one proposition: starting while the tracked job reports
not-finished is rejected with `false` before any new daemon job, and the
rejected start is not queued (the tracked entry and the store are exactly
as before); if the tracked job reports finished, or the status query
fails, the stale entry is dropped and the start proceeds to a fresh steady
job. -/
def C6Prop (bn : String) (c : SyncCfg) (old : SyncInfo) (j2 : Nat) (m : String)
    (store : SyncStore) : Prop :=
  let key := syncKeyOf bn c.name
  let steady := Ev.api (.command "bisync" (bisyncArgs (bn ++ ":" ++ c.remotePath) c.localPath false))
  (startSync bn c ⟨[.ok (.status false none)], [], [(key, old)], store, 0⟩ =
    (.ok false, ⟨[], [.api (.jobStatus old.jobId)], [(key, old)], store, 0⟩))
  ∧ (startSync bn c ⟨[.ok (.status true none), .ok (.cmd (some j2))], [], [(key, old)], store, 0⟩ =
      (.ok true, ⟨[], [.api (.jobStatus old.jobId), steady], [(key, ⟨j2, c, 0, 0⟩)], store, 0⟩))
  ∧ (startSync bn c ⟨[.error m, .ok (.cmd (some j2))], [], [(key, old)], store, 0⟩ =
      (.ok true, ⟨[], [.api (.jobStatus old.jobId), steady], [(key, ⟨j2, c, 0, 0⟩)], store, 0⟩))


/-! ## Basic lemmas -/

@[simp] theorem alookup_nil {α : Type} (k : String) :
    alookup ([] : List (String × α)) k = none := rfl

@[simp] theorem alookup_cons {α : Type} (k key : String) (v : α) (t : List (String × α)) :
    alookup ((k, v) :: t) key = if k = key then some v else alookup t key := rfl

@[simp] theorem aset_nil {α : Type} (key : String) (v : α) :
    aset ([] : List (String × α)) key v = [(key, v)] := rfl

@[simp] theorem aset_cons {α : Type} (k key : String) (w v : α) (t : List (String × α)) :
    aset ((k, w) :: t) key v = if k = key then (key, v) :: t else (k, w) :: aset t key v := rfl

@[simp] theorem adel_nil {α : Type} (key : String) : adel ([] : List (String × α)) key = [] := rfl

@[simp] theorem adel_cons {α : Type} (k key : String) (w : α) (t : List (String × α)) :
    adel ((k, w) :: t) key = if k = key then t else (k, w) :: adel t key := rfl

@[simp] theorem orDefault_empty_default (s : String) : orDefault s "" = s := by
  unfold orDefault; split <;> simp_all

theorem alookup_aset_self {α : Type} (m : List (String × α)) (k : String) (v : α) :
    alookup (aset m k v) k = some v := by
  induction m with
  | nil => simp
  | cons hd tl ih =>
    rcases hd with ⟨k1, v1⟩
    by_cases hk : k1 = k <;> simp [hk, ih]

theorem mem_ensureDirList_self (p : String) (l : List String) : p ∈ ensureDirList p l := by
  unfold ensureDirList
  split
  · next h => simpa [List.contains] using h
  · simp

/-! ## The claims -/

/-- C3 counterexample: on persistent connection resets, `makeRequest` makes
three transport attempts — two retries, not the claimed "at most once" —
with a 1000 ms delay before each retry. -/
theorem C3_counterexample :
    makeRequest (fun _ _ => .reject "ECONNRESET" "read ECONNRESET") 30000 =
      ⟨.error ⟨"ECONNRESET", "read ECONNRESET"⟩, 3, [1000, 1000]⟩
    ∧ ¬ (makeRequest (fun _ _ => .reject "ECONNRESET" "read ECONNRESET") 30000).calls ≤ 2 := by
  decide

/-- C3 (amended): `makeRequest` makes at most `maxRetries = 3` transport
attempts, waits `retryDelay = 1000` ms before every retry, retries only on
connection-reset-class failures (`ECONNRESET` code or a message containing
`socket hang up`), and propagates any other first-attempt failure — request
timeout, HTTP status error, parse timeout — immediately after one attempt;
a first-attempt success returns immediately. -/
theorem C3_makeRequest_retry_policy (fetch : Nat → Nat → FetchStage) (timeout : Nat) :
    (makeRequest fetch timeout).calls ≤ maxRetries
    ∧ (makeRequest fetch timeout).delays =
        List.replicate ((makeRequest fetch timeout).calls - 1) retryDelay
    ∧ (∀ e, classifyStage (fetch 0 timeout) = .error e → retryableError e = false →
        makeRequest fetch timeout = ⟨.error e, 1, []⟩)
    ∧ (∀ p, classifyStage (fetch 0 timeout) = .ok p →
        makeRequest fetch timeout = ⟨.ok p, 1, []⟩) := by
  rcases h0 : classifyStage (fetch 0 timeout) with e0 | p0
  · by_cases r0 : retryableError e0
    · rcases h1 : classifyStage (fetch 1 timeout) with e1 | p1
      · by_cases r1 : retryableError e1
        · rcases h2 : classifyStage (fetch 2 timeout) with e2 | p2
          · simp_all [makeRequest, mrLoop, maxRetries, retryDelay]
          · simp_all [makeRequest, mrLoop, maxRetries, retryDelay]
        · simp_all [makeRequest, mrLoop, maxRetries, retryDelay]
      · simp_all [makeRequest, mrLoop, maxRetries, retryDelay]
    · simp_all [makeRequest, mrLoop, maxRetries, retryDelay]
  · simp_all [makeRequest, mrLoop, maxRetries, retryDelay]

/-- C3 witness: a non-retryable HTTP-status failure on the first attempt
propagates after exactly one transport attempt with no delay. -/
theorem C3_witness :
    makeRequest (fun a _ => if a = 0 then .httpErr 500 "boom" else .okResp "x") 30000 =
      ⟨.error ⟨"", "HTTP error 500: boom"⟩, 1, []⟩ :=
  (C3_makeRequest_retry_policy (fun a _ => if a = 0 then .httpErr 500 "boom" else .okResp "x")
      30000).2.2.1 ⟨"", "HTTP error 500: boom"⟩ (by decide) (by decide)

/-- C10: `pingServer` probes with the request timeout lowered to 2000 ms,
restores the caller's timeout on every path, and reduces the probe outcome
to a `Bool` (its result type), so no probe failure escapes to the caller. -/
theorem C10_pingServer_restores_timeout (fetch : Nat → Nat → FetchStage)
    (st : ApiTimeoutState) :
    (pingServer fetch st).2 = st
    ∧ (pingServer fetch st).1 = exceptOk (makeRequest fetch 2000).result := by
  cases st
  exact ⟨rfl, rfl⟩

/-- C7 counterexample: with no mount service (CLI-fallback mode) the mount
dispatch resolves `false` silently instead of failing with a
"mount requires active RPC channel" error. -/
theorem C7_counterexample :
    mountDispatch none = .ok false ∧ exceptOk (mountDispatch none) = true := by
  exact ⟨rfl, rfl⟩

/-- C7 (amended): if no readiness poll succeeds within the 15-poll startup
window, `startRcloneAPI` kills the spawned process and resolves `false`
(running CLI mode) without throwing; a subsequent `mount` in that mode
resolves `false` silently rather than failing with an RPC-channel error. -/
theorem C7_startup_deadline_cli_mode (ready : Nat → Bool)
    (h : ∀ k, k < startupPollCount → ready (k + 1) = false) :
    startRcloneAPI true true ready = ⟨false, true, false⟩
    ∧ mountDispatch none = .ok false := by
  constructor
  · have hany : (List.range startupPollCount).any (fun k => ready (k + 1)) = false := by
      simp only [List.any_eq_false]
      intro k hk
      simp [h k (List.mem_range.mp hk)]
    simp [startRcloneAPI, hany]
  · rfl

/-- C7 witness: the never-ready daemon at the concrete oracle. -/
theorem C7_witness :
    startRcloneAPI true true (fun _ => false) = ⟨false, true, false⟩
    ∧ mountDispatch none = .ok false :=
  C7_startup_deadline_cli_mode (fun _ => false) (fun _ _ => rfl)

/-- C8 counterexample: saving a mount config with an empty option map into
a fresh store and reading it back yields the five default mount options,
not the saved (empty) option map. -/
theorem C8_counterexample :
    (getMountConfigFn (saveMountConfigFn [] "b" ⟨true, "", "", []⟩ "default") "b"
        "default").options = defaultMountOptions
    ∧ (getMountConfigFn (saveMountConfigFn [] "b" ⟨true, "", "", []⟩ "default") "b"
        "default") ≠ ⟨true, "", "", []⟩ := by
  decide

set_option maxHeartbeats 2000000 in
/-- C8 (amended): on a store with no section for the slot, save-then-read
round-trips `enabled`, `path` and `remotePath` exactly (empty or not), and
round-trips the option map whenever it consists of the five default option
names plus any further `--`-prefixed names — in general the read-back
option map is the defaults overridden by the saved options, modulo the
`_rclonetray_mount_opt_` key encoding. -/
theorem C8_mount_config_roundtrip (store : MountStore) (bn mountName : String) (en : Bool)
    (p rp v1 v2 v3 v4 v5 ev : String)
    (hfresh : alookup store (mountSectionKey bn mountName) = none) :
    getMountConfigFn
      (saveMountConfigFn store bn
        ⟨en, p, rp,
         [("--vfs-cache-mode", v1), ("--dir-cache-time", v2), ("--vfs-cache-max-age", v3),
          ("--vfs-read-ahead", v4), ("--buffer-size", v5), ("--custom-extra", ev)]⟩ mountName)
      bn mountName =
    ⟨en, p, rp,
     [("--vfs-cache-mode", v1), ("--dir-cache-time", v2), ("--vfs-cache-max-age", v3),
      ("--vfs-read-ahead", v4), ("--buffer-size", v5), ("--custom-extra", ev)]⟩ := by
  have e1 : jsReplaceFirst "--vfs-cache-mode" "--" = "vfs-cache-mode" := rfl
  have e2 : jsReplaceFirst "--dir-cache-time" "--" = "dir-cache-time" := rfl
  have e3 : jsReplaceFirst "--vfs-cache-max-age" "--" = "vfs-cache-max-age" := rfl
  have e4 : jsReplaceFirst "--vfs-read-ahead" "--" = "vfs-read-ahead" := rfl
  have e5 : jsReplaceFirst "--buffer-size" "--" = "buffer-size" := rfl
  have e6 : jsReplaceFirst "--custom-extra" "--" = "custom-extra" := rfl
  cases en <;> by_cases hrp : rp = "" <;> by_cases hp : p = "" <;>
    simp only [saveMountConfigFn, getMountConfigFn, hfresh, hrp, hp, ne_eq,
      not_false_eq_true, if_true, if_false, ite_true, ite_false, Option.getD_none,
      alookup_aset_self, not_true_eq_false, e1, e2, e3, e4, e5, e6] <;>
    rfl

/-- C8 witness: a concrete non-trivial round-trip through the fresh store. -/
theorem C8_witness :
    getMountConfigFn
      (saveMountConfigFn [] "gdrive" ⟨true, "/mnt/g", "backup",
        [("--vfs-cache-mode", "full"), ("--dir-cache-time", "5m"),
         ("--vfs-cache-max-age", "1h"), ("--vfs-read-ahead", "64M"),
         ("--buffer-size", "16M"), ("--custom-extra", "on")]⟩ "slot1")
      "gdrive" "slot1" =
    ⟨true, "/mnt/g", "backup",
     [("--vfs-cache-mode", "full"), ("--dir-cache-time", "5m"),
      ("--vfs-cache-max-age", "1h"), ("--vfs-read-ahead", "64M"),
      ("--buffer-size", "16M"), ("--custom-extra", "on")]⟩ :=
  C8_mount_config_roundtrip [] "gdrive" "slot1" true "/mnt/g" "backup"
    "full" "5m" "1h" "64M" "16M" "on" (by decide)

/-- C2 counterexample: mounting a key that already has an active-mount
cache entry returns success but does issue a fresh daemon `mount/mount`
request (after first unmounting the cached path), contradicting the
claimed no-op idempotence. -/
theorem C2_counterexample :
    (mount "b" "default" "/tmp"
          ⟨[.ok .unit, .ok .unit, .ok (.mounts ["/tmp/rclonetray-mounts/b"])], [],
           [("b@@default", ⟨"/old", "b:", []⟩)], [], []⟩).1 = true
    ∧ ((mount "b" "default" "/tmp"
          ⟨[.ok .unit, .ok .unit, .ok (.mounts ["/tmp/rclonetray-mounts/b"])], [],
           [("b@@default", ⟨"/old", "b:", []⟩)], [], []⟩).2.trace.countP
        (fun r => match r with | .createMount _ _ _ => true | _ => false)) = 1 := by
  decide

/-- C2 (amended): on a key present in the active-mount cache, `mount`
unmounts the cached path, drops the entry, and performs a full fresh mount:
the daemon sees `mount/unmount`, `mount/mount`, `mount/listmounts`, the
cache entry is replaced, and `enabled = true` is persisted. -/
theorem C2_mount_remounts_active_key (bn mountName tempDir : String) (entry : MountEntry)
    (mounts : List (String × MountEntry)) (store : MountStore) (d0 : List String)
    (hl : alookup mounts (mountCacheKey bn mountName) = some entry)
    (hcp : (getMountConfigFn store bn mountName).path ≠ "") :
    C2Prop bn mountName tempDir entry mounts store d0 := by
  simp only [C2Prop]
  simp [mount, mountInner, getMountPathM, mGetWorld, bind, pure, mApiCall, mTryCatch,
    mDelCache, mEnsureDir, mountLoop, mountCheckM, hl, hcp, mem_ensureDirList_self,
    List.contains, mThrow]

/-- C2 witness: remounting the cached `b@@m1` slot with a configured path. -/
theorem C2_witness :
    C2Prop "b" "m1" "/tmp" ⟨"/old", "b:", []⟩ [("b@@m1", ⟨"/old", "b:", []⟩)]
      [("b.mount_m1", [("_rclonetray_mount_path", "/mnt/b")])] [] :=
  C2_mount_remounts_active_key "b" "m1" "/tmp" ⟨"/old", "b:", []⟩
    [("b@@m1", ⟨"/old", "b:", []⟩)]
    [("b.mount_m1", [("_rclonetray_mount_path", "/mnt/b")])] [] (by decide) (by decide)


/-- C1: for a slot with non-empty paths and no tracked entry, `startSync`
issues the bootstrap copy exactly when the slot is uninitialized; on an
uninitialized slot it runs, in order, the waited one-shot copy, the waited
forced-resync bisync, the `initialized = 'true'` store write, and finally
the steady bisync that is tracked but never waited on (no request follows
its submission); the latch is set afterwards; an initialized slot goes
straight to the steady bisync with no `sync` command anywhere in its trace;
and either bootstrap-copy failure mode leaves the store and the tracked set
untouched. -/
theorem C1_startSync_bootstrap_protocol (bn : String) (c : SyncCfg) (j1 j2 j3 k : Nat)
    (m1 m2 : String) (storeU storeI : SyncStore)
    (hbn : bn ≠ "") (hname : c.name ≠ "") (hlp : c.localPath ≠ "") (hrp : c.remotePath ≠ "")
    (hj1 : j1 ≠ 0) (hj2 : j2 ≠ 0) (hj3 : j3 ≠ 0) (hk : k ≠ 0) (hm2 : m2 ≠ "")
    (hm2nf : jsIncludes m2 "job not found" = false)
    (hU : checkInitialized storeU bn c.name = false)
    (hI : checkInitialized storeI bn c.name = true) :
    C1Prop bn c j1 j2 j3 k m1 m2 storeU storeI := by
  have einit : orDefault "true" "false" = "true" := rfl
  refine ⟨?_, ?_, ?_, ?_, ?_⟩
  · simp [C1Prop, startSync, initialSync, runBisync, waitForJob, waitForJobAux,
      saveInitializationStatus, saveSyncConfigM, saveSyncConfigFn, hU, apiCall,
      deleteActive, setActive, sleepM, getWorld, throwE, tryCatchM, bind, pure,
      hlp, hrp, hbn, hname, Resp.jobidField, Resp.finishedField, Resp.errorField,
      jsTruthyNat, jsTruthyStr, hj1, hj2, hj3]
  · simp [checkInitialized, getSyncConfig, alookup_aset_self, sectionOfCfg,
      updatedInitConfig, einit, hlp, hrp]
  · simp [startSync, runBisync, waitForJob, waitForJobAux, hI, apiCall, deleteActive,
      setActive, getWorld, throwE, tryCatchM, bind, pure, hlp, hrp,
      Resp.jobidField, Resp.finishedField, Resp.errorField, jsTruthyNat, hk]
  · simp [startSync, initialSync, hU, apiCall, deleteActive, setActive, getWorld,
      throwE, tryCatchM, bind, pure, hlp, hrp, Resp.jobidField, jsTruthyNat]
  · simp [startSync, initialSync, waitForJob, waitForJobAux, hU, apiCall, deleteActive,
      setActive, sleepM, getWorld, throwE, tryCatchM, bind, pure, hlp, hrp,
      Resp.jobidField, Resp.finishedField, Resp.errorField, jsTruthyNat, jsTruthyStr,
      hj1, hm2, hm2nf]

/-- C1 witness: bookmark `remote1`, slot `work`, on an empty (uninitialized)
store and on a store whose slot section is initialized. -/
theorem C1_witness :
    C1Prop "remote1" ⟨"work", false, "/home/u/work", "backup", "bisync", "upload",
        "false", "", "", ""⟩ 11 12 13 21 "submit failed" "bisync aborted" []
      [("remote1.sync_work",
        ⟨"false", "/home/u/work", "backup", "bisync", "upload", "true", "2", "4", "100"⟩)] :=
  C1_startSync_bootstrap_protocol "remote1"
    ⟨"work", false, "/home/u/work", "backup", "bisync", "upload", "false", "", "", ""⟩
    11 12 13 21 "submit failed" "bisync aborted" []
    [("remote1.sync_work",
      ⟨"false", "/home/u/work", "backup", "bisync", "upload", "true", "2", "4", "100"⟩)]
    (by decide) (by decide) (by decide) (by decide) (by decide) (by decide) (by decide)
    (by decide) (by decide) (by decide) (by decide) (by decide)

/-- C6: at most one active job per key — a tracked key whose job is still
running rejects the new start with `false` and changes nothing, while a
finished or unqueryable tracked job is dropped and the start proceeds. -/
theorem C6_startSync_single_active_job (bn : String) (c : SyncCfg) (old : SyncInfo)
    (j2 : Nat) (m : String) (store : SyncStore)
    (hlp : c.localPath ≠ "") (hrp : c.remotePath ≠ "") (hj2 : j2 ≠ 0)
    (hI : checkInitialized store bn c.name = true) :
    C6Prop bn c old j2 m store := by
  refine ⟨?_, ?_, ?_⟩ <;>
    simp [C6Prop, startSync, runBisync, waitForJob, waitForJobAux, hI, apiCall,
      deleteActive, setActive, getWorld, throwE, tryCatchM, bind, pure, hlp, hrp,
      Resp.jobidField, Resp.finishedField, Resp.errorField, jsTruthyNat, hj2]

/-- C6 witness: a concrete tracked slot in the three scenarios. -/
theorem C6_witness :
    C6Prop "remote1" ⟨"work", false, "/home/u/work", "backup", "bisync", "upload",
        "true", "", "", ""⟩
      ⟨41, ⟨"work", false, "/home/u/work", "backup", "bisync", "upload", "true", "", "", ""⟩,
       0, 0⟩ 42 "status query failed"
      [("remote1.sync_work",
        ⟨"false", "/home/u/work", "backup", "bisync", "upload", "true", "2", "4", "100"⟩)] :=
  C6_startSync_single_active_job "remote1"
    ⟨"work", false, "/home/u/work", "backup", "bisync", "upload", "true", "", "", ""⟩
    ⟨41, ⟨"work", false, "/home/u/work", "backup", "bisync", "upload", "true", "", "", ""⟩,
     0, 0⟩ 42 "status query failed"
    [("remote1.sync_work",
      ⟨"false", "/home/u/work", "backup", "bisync", "upload", "true", "2", "4", "100"⟩)]
    (by decide) (by decide) (by decide) (by decide)

set_option maxHeartbeats 4000000 in
/-- C5 counterexample: for the bookmark `my_drive` (name containing an
underscore) with tracked key `my_drive_work`, the health check on a
finished, error-free bisync job does NOT replace the tracked entry with a
fresh job id. `performHealthCheck` recovers the bookmark as
`split('_')[0] = "my"`, so the relaunch runs under the truncated bookmark:
the entry for `my_drive_work` is gone, a one-shot bootstrap copy is issued
against the wrong remote `my:backup`, the new job is tracked under the
different key `my_work`, and a spurious `my.sync_work` section is written
to the store. -/
theorem C5_counterexample :
    (performHealthCheck underscoreWorld).1 = .ok ()
    ∧ alookup (performHealthCheck underscoreWorld).2.active "my_drive_work" = none
    ∧ alookup (performHealthCheck underscoreWorld).2.active "my_work" =
        some ⟨44, underscoreCfg, 40000, 40000⟩
    ∧ Ev.api (Req.command "sync" (initialSyncArgs "my:backup" "/home/u/work"))
        ∈ (performHealthCheck underscoreWorld).2.trace
    ∧ alookup (performHealthCheck underscoreWorld).2.store "my.sync_work" ≠ none := by
  decide

/-- C5 (amended): health-check handling of finished jobs — relaunch-and-
replace for error-free bisync jobs, plain removal for one-shot jobs, and
silent removal when the daemon no longer knows the job — for keys whose
`split('_')` head recovers the bookmark name (hypothesis `hsplit`, which
holds in particular for every bookmark name without an underscore). For a
bookmark name containing an underscore the relaunch clause fails, as the
counterexample shows. -/
theorem C5_healthCheck_finished_jobs (bn : String) (c d : SyncCfg) (j1 j2 t0 tc n : Nat)
    (m : String) (store : SyncStore)
    (hlp : c.localPath ≠ "") (hrp : c.remotePath ≠ "") (hj2 : j2 ≠ 0)
    (hmode : c.mode = "bisync") (hmode2 : (d.mode == "bisync") = false)
    (hsplit : (jsSplitChar (syncKeyOf bn c.name) '_').head?.getD "" = bn)
    (hI : checkInitialized store bn c.name = true)
    (hfr : ¬ (n - tc < healthCheckInterval))
    (hm : jsIncludes m "job not found" = true) :
    C5Prop bn c d j1 j2 t0 tc n m store := by
  refine ⟨?_, ?_, ?_⟩ <;>
    simp [C5Prop, performHealthCheck, healthCheckList, healthCheckOne, startSync,
      runBisync, waitForJob, waitForJobAux, hI, apiCall, deleteActive, setActive,
      setLastCheck, getWorld, throwE, tryCatchM, bind, pure, hlp, hrp, hmode, hmode2,
      hsplit, hfr, hm, Resp.jobidField, Resp.finishedField, Resp.errorField,
      jsTruthyNat, jsTruthyStr, hj2]

/-- C5 witness: a stale bisync entry `remote1_work`, a stale one-shot entry
`remote1_push`, and a lost job, all at time 40000. -/
theorem C5_witness :
    C5Prop "remote1"
      ⟨"work", false, "/home/u/work", "backup", "bisync", "upload", "true", "", "", ""⟩
      ⟨"push", false, "/home/u/push", "out", "sync", "upload", "true", "", "", ""⟩
      41 42 0 0 40000 "job not found"
      [("remote1.sync_work",
        ⟨"false", "/home/u/work", "backup", "bisync", "upload", "true", "2", "4", "100"⟩)] :=
  C5_healthCheck_finished_jobs "remote1"
    ⟨"work", false, "/home/u/work", "backup", "bisync", "upload", "true", "", "", ""⟩
    ⟨"push", false, "/home/u/push", "out", "sync", "upload", "true", "", "", ""⟩
    41 42 0 0 40000 "job not found"
    [("remote1.sync_work",
      ⟨"false", "/home/u/work", "backup", "bisync", "upload", "true", "2", "4", "100"⟩)]
    (by decide) (by decide) (by decide) (by decide) (by decide) (by decide) (by decide)
    (by decide) (by decide)

/-- C4 counterexample: on a tracked key whose daemon stop fails with an
error other than job-not-found, the `RcloneSyncService` variant rethrows
and leaves the entry tracked — it is not cleared "regardless of the
daemon's response". -/
theorem C4_counterexample :
    stopSync "b" "s"
        ⟨[.error "daemon unreachable"], [],
         [("b_s", ⟨7, ⟨"s", false, "/l", "r", "bisync", "upload", "false", "", "", ""⟩, 0, 0⟩)],
         [], 0⟩ =
      (.error "daemon unreachable",
       ⟨[], [.api (.jobStop 7)],
        [("b_s", ⟨7, ⟨"s", false, "/l", "r", "bisync", "upload", "false", "", "", ""⟩, 0, 0⟩)],
        [], 0⟩) := by
  decide

/-- C4 (amended): the two `stopSync` variants — untracked keys give `false`
with no daemon call in both; the `RcloneSyncService` variant clears the
entry and returns `true` on success or job-not-found but rethrows with the
entry kept on other failures; the `sync.service` variant always clears the
entry, returning `true` on success and `false` on any failure. -/
theorem C4_stopSync_behaviour (bn sname : String) (info : SyncInfo) (jid : Nat)
    (act0 act1 : List (String × SyncInfo)) (scr : List (Except String Resp))
    (tr : List Ev) (st : SyncStore) (n : Nat) (m1 m2 : String)
    (sact0 sact1 : List (String × Nat)) (smon : List String) (resp0 : Resp) (me : String)
    (hno : alookup act0 (syncKeyOf bn sname) = none)
    (hyes : alookup act1 (syncKeyOf bn sname) = some info)
    (hm1 : jsIncludes m1 "job not found" = true)
    (hm2 : jsIncludes m2 "job not found" = false)
    (hsno : alookup sact0 (svcSyncKey bn sname) = none)
    (hsyes : alookup sact1 (svcSyncKey bn sname) = some jid) :
    C4Prop bn sname info act0 act1 scr tr st n m1 m2 sact0 sact1 smon resp0 me := by
  refine ⟨?_, ?_, ?_, ?_, ?_, ?_, ?_⟩ <;>
    simp [C4Prop, stopSync, stopSyncSvc, hno, hyes, hm1, hm2, hsno, hsyes, apiCall,
      deleteActive, getWorld, throwE, tryCatchM, bind, pure]

/-- C4 witness: concrete tracked and untracked keys under the three daemon
answers, for both variants. -/
theorem C4_witness :
    C4Prop "b" "s" ⟨7, ⟨"s", false, "/l", "r", "bisync", "upload", "false", "", "", ""⟩, 0, 0⟩
      [] [("b_s", ⟨7, ⟨"s", false, "/l", "r", "bisync", "upload", "false", "", "", ""⟩, 0, 0⟩)]
      [.ok .unit] [] [] 5 "job not found" "daemon unreachable"
      [] [("b@@s", 7)] ["b@@s"] .unit "stop failed" :=
  C4_stopSync_behaviour "b" "s"
    ⟨7, ⟨"s", false, "/l", "r", "bisync", "upload", "false", "", "", ""⟩, 0, 0⟩ 7
    [] [("b_s", ⟨7, ⟨"s", false, "/l", "r", "bisync", "upload", "false", "", "", ""⟩, 0, 0⟩)]
    [.ok .unit] [] [] 5 "job not found" "daemon unreachable"
    [] [("b@@s", 7)] ["b@@s"] .unit "stop failed"
    (by decide) (by decide) (by decide) (by decide) (by decide) (by decide)

/-- C9: `_saveInitializationStatus` overwrites the slot section with
`mode = 'bisync'` and `_rclonetray_sync_initialized = 'true'`
unconditionally (whatever mode was stored before), preserves the existing
`enabled` flag (defaulting to `false` without a prior record), takes
`localPath` and `remotePath` from the config passed to the start call, and
stores under the passed config's name; nothing else in the world changes. -/
theorem C9_saveInitializationStatus_frame (bn : String) (c : SyncCfg) (store : SyncStore)
    (scr : List (Except String Resp)) (tr : List Ev) (act : List (String × SyncInfo)) (n : Nat)
    (hbn : bn ≠ "") (hname : c.name ≠ "") :
    saveInitializationStatus bn c ⟨scr, tr, act, store, n⟩ =
      (.ok (),
       ⟨scr,
        tr ++ [.save (syncSectionKey bn c.name)
          (sectionOfCfg (updatedInitConfig (getSyncConfig store bn c.name) c))],
        act,
        aset store (syncSectionKey bn c.name)
          (sectionOfCfg (updatedInitConfig (getSyncConfig store bn c.name) c)), n⟩)
    ∧ (sectionOfCfg (updatedInitConfig (getSyncConfig store bn c.name) c)).mode = "bisync"
    ∧ (sectionOfCfg (updatedInitConfig (getSyncConfig store bn c.name) c)).initialized = "true"
    ∧ (sectionOfCfg (updatedInitConfig (getSyncConfig store bn c.name) c)).localPath =
        c.localPath
    ∧ (sectionOfCfg (updatedInitConfig (getSyncConfig store bn c.name) c)).remotePath =
        c.remotePath
    ∧ (sectionOfCfg (updatedInitConfig (getSyncConfig store bn c.name) c)).enabled =
        boolStr (match getSyncConfig store bn c.name with
          | some e => e.enabled
          | none => false) := by
  have einit : orDefault "true" "false" = "true" := rfl
  have emode : orDefault "bisync" "bisync" = "bisync" := rfl
  refine ⟨?_, ?_, ?_, ?_, ?_, ?_⟩ <;>
    simp [saveInitializationStatus, saveSyncConfigM, saveSyncConfigFn, getWorld, bind,
      pure, hbn, hname, sectionOfCfg, updatedInitConfig, einit, emode]

/-- C9 witness: a prior record in one-shot mode with `enabled = 'true'`;
the write flips the mode to `bisync`, keeps `enabled`, and sets the latch. -/
theorem C9_witness :
    saveInitializationStatus "remote1"
        ⟨"work", false, "/home/u/work", "backup", "bisync", "upload", "false", "", "", ""⟩
        ⟨[], [], [],
         [("remote1.sync_work",
           ⟨"true", "/old", "oldremote", "sync", "download", "false", "2", "4", "100"⟩)], 0⟩ =
      (.ok (),
       ⟨[],
        [.save (syncSectionKey "remote1" "work")
          (sectionOfCfg (updatedInitConfig
            (getSyncConfig
              [("remote1.sync_work",
                ⟨"true", "/old", "oldremote", "sync", "download", "false", "2", "4", "100"⟩)]
              "remote1" "work")
            ⟨"work", false, "/home/u/work", "backup", "bisync", "upload", "false", "", "", ""⟩))],
        [],
        aset
          [("remote1.sync_work",
            ⟨"true", "/old", "oldremote", "sync", "download", "false", "2", "4", "100"⟩)]
          (syncSectionKey "remote1" "work")
          (sectionOfCfg (updatedInitConfig
            (getSyncConfig
              [("remote1.sync_work",
                ⟨"true", "/old", "oldremote", "sync", "download", "false", "2", "4", "100"⟩)]
              "remote1" "work")
            ⟨"work", false, "/home/u/work", "backup", "bisync", "upload", "false", "", "", ""⟩)),
        0⟩)
    ∧ (sectionOfCfg (updatedInitConfig
        (getSyncConfig
          [("remote1.sync_work",
            ⟨"true", "/old", "oldremote", "sync", "download", "false", "2", "4", "100"⟩)]
          "remote1" "work")
        ⟨"work", false, "/home/u/work", "backup", "bisync", "upload", "false", "", "", ""⟩)).mode
        = "bisync"
    ∧ (sectionOfCfg (updatedInitConfig
        (getSyncConfig
          [("remote1.sync_work",
            ⟨"true", "/old", "oldremote", "sync", "download", "false", "2", "4", "100"⟩)]
          "remote1" "work")
        ⟨"work", false, "/home/u/work", "backup", "bisync", "upload", "false", "", "", ""⟩)).initialized
        = "true" := by
  have h := C9_saveInitializationStatus_frame "remote1"
    ⟨"work", false, "/home/u/work", "backup", "bisync", "upload", "false", "", "", ""⟩
    [("remote1.sync_work",
      ⟨"true", "/old", "oldremote", "sync", "download", "false", "2", "4", "100"⟩)]
    [] [] [] 0 (by decide) (by decide)
  exact ⟨h.1, h.2.1, h.2.2.1⟩

end CloneTray
